import Mathlib

/-!
Verification development for the emp-redis-worker client (src/main.py).

The worker keeps a WebSocket session to a hub, announces capabilities,
sends periodic heartbeats, and executes dispatched jobs, reporting
status transitions and job outcomes. We embed the message data model,
the job executor (process_job), the dispatcher (handle_message), the
per-session receive loop with its concurrent heartbeat task
(connect_to_hub inner block), the outer reconnect loop, and the
top-level exception handling of the __main__ block.

Effectful operations that can raise in Python (websocket.send, the
simulated job work) are modelled by an explicit fault assignment: each
such operation either succeeds or raises a given error string.
Wall-clock time (time.time()) is modelled by a counter that advances
at each call site.
-/

namespace EmpRedisWorker

/-- JSON-like values as produced by json.loads and consumed by json.dumps.
Timestamps are modelled as natural numbers. -/
inductive JVal where
  | str (s : String)
  | num (n : Nat)
  | jbool (b : Bool)
  | null
  | obj (fields : List (String × JVal))

/-- Dictionary lookup: Python dict.get(key), returning None when absent. -/
def jGet : List (String × JVal) → String → Option JVal
  | [], _ => none
  | (k, v) :: rest, key => if k == key then some v else jGet rest key

/-- Python equality test of an optional JSON value against a string literal,
as in message.get("type") == "job_assignment". -/
def typeIs : Option JVal → String → Bool
  | some (JVal.str t), s => t == s
  | _, _ => false

/-- Python str() of a JSON value, used in f-string interpolation. -/
def pyStr : JVal → String
  | JVal.str s => s
  | JVal.num n => toString n
  | JVal.jbool b => if b then "True" else "False"
  | JVal.null => "None"
  | JVal.obj _ => "dict"

/-- Python str() of an optional JSON value; str(None) is the word None. -/
def pyStrOpt : Option JVal → String
  | none => "None"
  | some v => pyStr v

/-- A Python value that may be None; serialized to JSON, None becomes null. -/
def optJ : Option JVal → JVal
  | none => JVal.null
  | some v => v

/-- The outbound messages the worker builds and sends, one constructor per
dict shape in src/main.py. In worker_status, capabilities is present only
in the initial status, and the job_id key is present only in the busy
status (where its value may be the JSON encoding of Python None). -/
inductive OutMsg where
  | workerStatusMsg (workerId status : String) (capabilities : Option JVal)
      (jobId : Option (Option JVal)) (timestamp : Nat)
  | heartbeatMsg (workerId : String) (timestamp : Nat)
  | jobCompletedMsg (workerId : String) (jobId : Option JVal) (result : JVal)
      (timestamp : Nat)
  | jobFailedMsg (workerId : String) (jobId : Option JVal) (error : String)
      (timestamp : Nat)

/-- The value of the type key each outbound dict is built with. -/
def OutMsg.typeTag : OutMsg → String
  | .workerStatusMsg .. => "worker_status"
  | .heartbeatMsg .. => "heartbeat"
  | .jobCompletedMsg .. => "job_completed"
  | .jobFailedMsg .. => "job_failed"

/-- The time.time() value the message was built with. -/
def OutMsg.timestamp : OutMsg → Nat
  | .workerStatusMsg _ _ _ _ t => t
  | .heartbeatMsg _ t => t
  | .jobCompletedMsg _ _ _ t => t
  | .jobFailedMsg _ _ _ t => t

/-- Serialization of an outbound message to the JSON dict passed to
json.dumps, with the exact keys and key order of src/main.py. -/
def OutMsg.toJson : OutMsg → List (String × JVal)
  | .workerStatusMsg wid st caps jid t =>
      match caps, jid with
      | none, none =>
          [("type", JVal.str "worker_status"), ("worker_id", JVal.str wid),
           ("status", JVal.str st), ("timestamp", JVal.num t)]
      | some cv, none =>
          [("type", JVal.str "worker_status"), ("worker_id", JVal.str wid),
           ("status", JVal.str st), ("capabilities", cv), ("timestamp", JVal.num t)]
      | none, some j =>
          [("type", JVal.str "worker_status"), ("worker_id", JVal.str wid),
           ("status", JVal.str st), ("job_id", optJ j), ("timestamp", JVal.num t)]
      | some cv, some j =>
          [("type", JVal.str "worker_status"), ("worker_id", JVal.str wid),
           ("status", JVal.str st), ("capabilities", cv), ("job_id", optJ j),
           ("timestamp", JVal.num t)]
  | .heartbeatMsg wid t =>
      [("type", JVal.str "heartbeat"), ("worker_id", JVal.str wid),
       ("timestamp", JVal.num t)]
  | .jobCompletedMsg wid jid r t =>
      [("type", JVal.str "job_completed"), ("worker_id", JVal.str wid),
       ("job_id", optJ jid), ("result", r), ("timestamp", JVal.num t)]
  | .jobFailedMsg wid jid e t =>
      [("type", JVal.str "job_failed"), ("worker_id", JVal.str wid),
       ("job_id", optJ jid), ("error", JVal.str e), ("timestamp", JVal.num t)]

/-- Predicate: the message is a heartbeat. -/
@[simp] def OutMsg.isHeartbeatMsg : OutMsg → Bool
  | .heartbeatMsg .. => true
  | _ => false

/-- Predicate: the message is a worker_status with status busy. -/
@[simp] def OutMsg.isBusyStatus : OutMsg → Bool
  | .workerStatusMsg _ st _ _ _ => st == "busy"
  | _ => false

/-- Predicate: the message is a worker_status with status idle. -/
@[simp] def OutMsg.isIdleStatus : OutMsg → Bool
  | .workerStatusMsg _ st _ _ _ => st == "idle"
  | _ => false

/-- Predicate: the message is a job_completed report. -/
@[simp] def OutMsg.isJobCompletedMsg : OutMsg → Bool
  | .jobCompletedMsg .. => true
  | _ => false

/-- Predicate: the message is a job_failed report. -/
@[simp] def OutMsg.isJobFailedMsg : OutMsg → Bool
  | .jobFailedMsg .. => true
  | _ => false

/-- One structured constructor per logging call site in src/main.py. -/
inductive LogEvent where
  | connectedToHub
  | receivedMessage (mt : Option JVal)
  | connectionConfirmed (m : Option JVal)
  | heartbeatAcknowledged
  | unknownMessageType (mt : Option JVal)
  | invalidJson (payload : String)
  | errorHandlingMessage (e : String)
  | processingJob (jid : Option JVal)
  | startingJob (jid : Option JVal)
  | completedJob (jid : Option JVal)
  | errorProcessingJob (jid : Option JVal) (e : String)
  | heartbeatSent
  | errorSendingHeartbeat (e : String)
  | errorInMessageLoop (e : String)
  | connectionError (e : String)
  | reconnecting
  | workerShuttingDown
  | unhandledTop (e : String)

/-- A Python exception as distinguished by the except clauses of
handle_message: json.JSONDecodeError versus any other Exception. -/
inductive PyErr where
  | jsonDecodeError (payload : String)
  | exc (msg : String)

/-- Fault assignment for one job-assignment dispatch: each effectful
operation inside process_job either succeeds (none) or raises the given
error string (some). -/
structure Faults where
  busySend : Option String
  jobWork : Option String
  completedSend : Option String
  failedSend : Option String
  idleSend : Option String

/-- All operations succeed. -/
def Faults.allOk : Faults := ⟨none, none, none, none, none⟩

/-- All four websocket sends succeed (the job work itself may still raise). -/
def Faults.sendsOk (f : Faults) : Bool :=
  f.busySend.isNone && f.completedSend.isNone && f.failedSend.isNone && f.idleSend.isNone

/-- An inbound raw WebSocket message: either undecodable JSON or a decoded
top-level object. -/
inductive Inbound where
  | malformed (payload : String)
  | parsed (fields : List (String × JVal))

/-- Result of process_job: messages actually sent, log events, final clock,
and the exception propagated to the caller, if any. -/
structure ExecResult where
  out : List OutMsg
  logs : List LogEvent
  clock : Nat
  raised : Option String

/-- Result of handle_message and of the receive loop body. -/
structure HandleResult where
  out : List OutMsg
  logs : List LogEvent
  clock : Nat
  raised : Option PyErr

/-- The result dict of a successful simulated job, as built in process_job. -/
def jobResult (jid : Option JVal) : JVal :=
  JVal.obj [("status", JVal.str "success"),
            ("output", JVal.str ("Job " ++ pyStrOpt jid ++ " completed successfully"))]

/-- The except-Exception clause of process_job: log the job error, then try
to send the job_failed report; a failure of that send propagates. -/
def exceptPart (wid : String) (f : Faults) (jid : Option JVal) (c : Nat)
    (logsBefore : List LogEvent) (e : String) :
    List OutMsg × List LogEvent × Nat × Option String :=
  match f.failedSend with
  | none =>
      ([OutMsg.jobFailedMsg wid jid e c],
       logsBefore ++ [LogEvent.errorProcessingJob jid e], c + 1, none)
  | some e2 =>
      ([], logsBefore ++ [LogEvent.errorProcessingJob jid e], c + 1, some e2)

/-- process_job (src/main.py lines 145-196): send the busy status, run the
simulated work and send job_completed inside a try, send job_failed in the
except clause, and unconditionally send the idle status in the finally
clause. Python finally semantics: an exception raised by the idle send
replaces any pending exception. -/
def process_job (wid : String) (f : Faults) (jobMessage : List (String × JVal))
    (clock : Nat) : ExecResult :=
  let jid := jGet jobMessage "job_id"
  match f.busySend with
  | some e =>
      { out := [], logs := [LogEvent.processingJob jid], clock := clock + 1,
        raised := some e }
  | none =>
      let busy := OutMsg.workerStatusMsg wid "busy" none (some jid) clock
      let c1 := clock + 1
      let tryPart : List OutMsg × List LogEvent × Nat × Option String :=
        match f.jobWork with
        | none =>
            match f.completedSend with
            | none =>
                ([OutMsg.jobCompletedMsg wid jid (jobResult jid) c1],
                 [LogEvent.startingJob jid, LogEvent.completedJob jid], c1 + 1, none)
            | some e =>
                exceptPart wid f jid (c1 + 1)
                  [LogEvent.startingJob jid, LogEvent.completedJob jid] e
        | some e =>
            exceptPart wid f jid c1 [LogEvent.startingJob jid] e
      match tryPart with
      | (outT, logsT, c2, pending) =>
        match f.idleSend with
        | none =>
            { out := busy :: outT ++ [OutMsg.workerStatusMsg wid "idle" none none c2],
              logs := LogEvent.processingJob jid :: logsT,
              clock := c2 + 1, raised := pending }
        | some e3 =>
            { out := busy :: outT,
              logs := LogEvent.processingJob jid :: logsT,
              clock := c2 + 1, raised := some e3 }

/-- The body of handle_message before its except clauses: decode, then route
by the type key; a job_assignment invokes process_job, whose exception, if
any, propagates out of the body. -/
def handle_message_body (wid : String) (f : Faults) (m : Inbound) (clock : Nat) :
    HandleResult :=
  match m with
  | .malformed payload =>
      { out := [], logs := [], clock := clock,
        raised := some (PyErr.jsonDecodeError payload) }
  | .parsed fields =>
      let mt := jGet fields "type"
      let l0 := [LogEvent.receivedMessage mt]
      if typeIs mt "connection_established" then
        { out := [], logs := l0 ++ [LogEvent.connectionConfirmed (jGet fields "message")],
          clock := clock, raised := none }
      else if typeIs mt "job_assignment" then
        let r := process_job wid f fields clock
        { out := r.out, logs := l0 ++ r.logs, clock := r.clock,
          raised := r.raised.map PyErr.exc }
      else if typeIs mt "heartbeat_response" then
        { out := [], logs := l0 ++ [LogEvent.heartbeatAcknowledged],
          clock := clock, raised := none }
      else
        { out := [], logs := l0 ++ [LogEvent.unknownMessageType mt],
          clock := clock, raised := none }

/-- handle_message (src/main.py lines 120-143): the body wrapped in the two
except clauses, which turn a JSONDecodeError into an invalid-JSON log and
any other exception into an error log; nothing escapes. -/
def handle_message (wid : String) (f : Faults) (m : Inbound) (clock : Nat) :
    HandleResult :=
  let r := handle_message_body wid f m clock
  match r.raised with
  | some (PyErr.jsonDecodeError payload) =>
      { out := r.out, logs := r.logs ++ [LogEvent.invalidJson payload],
        clock := r.clock, raised := none }
  | some (PyErr.exc e) =>
      { out := r.out, logs := r.logs ++ [LogEvent.errorHandlingMessage e],
        clock := r.clock, raised := none }
  | none => r

/-- One scheduler event inside a live session: the receive loop gets a
message (with the fault assignment for handling it), the receive loop's
recv call raises, or the heartbeat loop wakes up (its send succeeding or
raising the given error). -/
inductive SessEvent where
  | recvMsg (m : Inbound) (f : Faults)
  | recvFail (e : String)
  | hbTick (fail : Option String)

/-- Result of running a session prefix: outbound messages in send order,
log events, final clock, and some e when the receive loop has exited with
error e (after which the heartbeat task is cancelled and the session is
torn down; later events do not happen). -/
structure SessResult where
  out : List OutMsg
  logs : List LogEvent
  clock : Nat
  ended : Option String

/-- The inner block of connect_to_hub after the initial status send: the
receive loop interleaved with the heartbeat task. hbAlive records whether
the heartbeat task is still running; a failed heartbeat send logs an error
and terminates only the heartbeat task (the loop body breaks), after which
its wakeups do nothing. A recv failure is logged by the except clause of
the message loop and ends the session; the message loop never watches
hbAlive. -/
def runSessionAux (wid : String) : List SessEvent → Bool → Nat → SessResult
  | [], _, c => { out := [], logs := [], clock := c, ended := none }
  | SessEvent.hbTick fail :: rest, hbAlive, c =>
      if hbAlive then
        match fail with
        | none =>
            let r := runSessionAux wid rest true (c + 1)
            { out := OutMsg.heartbeatMsg wid c :: r.out,
              logs := LogEvent.heartbeatSent :: r.logs,
              clock := r.clock, ended := r.ended }
        | some e =>
            let r := runSessionAux wid rest false (c + 1)
            { out := r.out, logs := LogEvent.errorSendingHeartbeat e :: r.logs,
              clock := r.clock, ended := r.ended }
      else
        runSessionAux wid rest false c
  | SessEvent.recvMsg m f :: rest, hbAlive, c =>
      let h := handle_message wid f m c
      let r := runSessionAux wid rest hbAlive h.clock
      { out := h.out ++ r.out, logs := h.logs ++ r.logs,
        clock := r.clock, ended := r.ended }
  | SessEvent.recvFail e :: _, _, c =>
      { out := [], logs := [LogEvent.errorInMessageLoop e], clock := c,
        ended := some e }

/-- The receive loop with the heartbeat task freshly started. -/
def runSession (wid : String) (events : List SessEvent) (c : Nat) : SessResult :=
  runSessionAux wid events true c

/-- WORKER_CAPABILITIES of src/main.py. -/
def WORKER_CAPABILITIES : JVal :=
  JVal.obj [("gpu", JVal.jbool true), ("cpu", JVal.jbool true),
            ("memory", JVal.str "16GB"), ("version", JVal.str "1.0.0")]

/-- One successful connection (the body of the async-with in
connect_to_hub): send the initial idle status with capabilities, then
start the heartbeat task, then run the receive loop. -/
def connectSession (wid : String) (events : List SessEvent) (c : Nat) : SessResult :=
  let initialStatus := OutMsg.workerStatusMsg wid "idle" (some WORKER_CAPABILITIES) none c
  let r := runSession wid events (c + 1)
  { out := initialStatus :: r.out, logs := LogEvent.connectedToHub :: r.logs,
    clock := r.clock, ended := r.ended }

/-- Outcome of one iteration of the outer while-True loop of
connect_to_hub: either the connection attempt itself raises, or a session
runs through the given events and then its receive loop raises e. -/
inductive Attempt where
  | connectFail (e : String)
  | sessionEnd (events : List SessEvent) (e : String)

/-- Observable actions of the outer reconnect loop. -/
inductive Act where
  | tryConnect
  | send (m : OutMsg)
  | sleep (secs : Nat)

/-- The outer while-True loop of connect_to_hub (src/main.py lines 69-103)
over a finite prefix of attempt outcomes. When websockets.connect raises,
the outer except logs and sleeps 5 seconds before the next attempt. When a
running session's receive loop raises, the inner except logs and swallows
the error, the heartbeat task is cancelled, the async-with closes the
socket, and the loop proceeds directly to the next attempt: the outer
except is not reached and no sleep occurs. -/
def connectLoop (wid : String) : List Attempt → Nat → List Act
  | [], _ => []
  | Attempt.connectFail _ :: rest, c =>
      Act.tryConnect :: Act.sleep 5 :: connectLoop wid rest c
  | Attempt.sessionEnd events e :: rest, c =>
      let r := connectSession wid (events ++ [SessEvent.recvFail e]) c
      Act.tryConnect :: (r.out.map Act.send ++ connectLoop wid rest r.clock)

/-- Predicate: the action is a connection attempt. -/
def Act.isTryConnect : Act → Bool
  | .tryConnect => true
  | _ => false

/-- Predicate: the action is a sleep of any duration. -/
def Act.isSleep : Act → Bool
  | .sleep _ => true
  | _ => false

/-- Every connection attempt after the first is immediately preceded by a
sleep: the formal reading of wait-backoff-then-retry after every failure. -/
def retriesBackoff : List Act → Bool
  | a :: b :: rest => (!(Act.isTryConnect b) || Act.isSleep a) && retriesBackoff (b :: rest)
  | _ => true

/-- How asyncio.run(connect_to_hub()) in the __main__ block terminates:
a KeyboardInterrupt, or some other unhandled exception escaping the
reconnect loop. -/
inductive TopOutcome where
  | keyboardInterrupt
  | unhandled (e : String)

/-- Logs and process exit code produced by the __main__ block. -/
structure MainResult where
  logs : List LogEvent
  exitCode : Nat

/-- The try-except of the __main__ block (src/main.py lines 198-218):
KeyboardInterrupt is caught, logged, and the process falls off the end of
the script (exit code 0); any other exception is logged and the block
calls sys.exit(1). -/
def mainHandler : TopOutcome → MainResult
  | TopOutcome.keyboardInterrupt =>
      { logs := [LogEvent.workerShuttingDown], exitCode := 0 }
  | TopOutcome.unhandled e =>
      { logs := [LogEvent.unhandledTop e], exitCode := 1 }

/-- Predicate on inbound messages: decoded with type job_assignment. -/
def Inbound.isJobAssign : Inbound → Bool
  | .parsed fields => typeIs (jGet fields "type") "job_assignment"
  | .malformed _ => false

/-- Predicate on session events: a received job_assignment message. -/
def SessEvent.isJobAssign : SessEvent → Bool
  | .recvMsg m _ => m.isJobAssign
  | _ => false

/-- Predicate on session events: the recv call raises. -/
def SessEvent.isRecvFail : SessEvent → Bool
  | .recvFail _ => true
  | _ => false

/-- Predicate on session events: the fault assignment for a received
message lets all websocket sends succeed. -/
def SessEvent.faultsOk : SessEvent → Bool
  | .recvMsg _ f => f.sendsOk
  | _ => true

/-! Helper lemmas. -/

/-- The except clauses of handle_message never drop or add outbound
messages: the wrapped result carries the same out list as the body. -/
lemma handle_message_out_eq_body (wid : String) (f : Faults) (m : Inbound) (c : Nat) :
    (handle_message wid f m c).out = (handle_message_body wid f m c).out := by
  unfold handle_message
  rcases h : (handle_message_body wid f m c).raised with _ | p
  · simp [h]
  · cases p <;> simp [h]

/-- A true typeIs test pins the optional value down to that string. -/
lemma typeIs_eq_some (mt : Option JVal) (s : String) (h : typeIs mt s = true) :
    mt = some (JVal.str s) := by
  rcases mt with _ | v
  · simp [typeIs] at h
  · cases v <;> simp [typeIs] at h ⊢
    exact h

/-- When all four sends succeed, process_job emits exactly the
busy/outcome/idle bracket, the outcome being job_completed when the work
succeeds and job_failed carrying the error when it raises, and no
exception reaches the caller. -/
lemma process_job_sendsOk (wid : String) (f : Faults) (fields : List (String × JVal))
    (c : Nat) (h : f.sendsOk = true) :
    (process_job wid f fields c).raised = none
    ∧ ((f.jobWork = none ∧ (process_job wid f fields c).out =
          [OutMsg.workerStatusMsg wid "busy" none (some (jGet fields "job_id")) c,
           OutMsg.jobCompletedMsg wid (jGet fields "job_id")
             (jobResult (jGet fields "job_id")) (c + 1),
           OutMsg.workerStatusMsg wid "idle" none none (c + 1 + 1)])
      ∨ (∃ e, f.jobWork = some e ∧ (process_job wid f fields c).out =
          [OutMsg.workerStatusMsg wid "busy" none (some (jGet fields "job_id")) c,
           OutMsg.jobFailedMsg wid (jGet fields "job_id") e (c + 1),
           OutMsg.workerStatusMsg wid "idle" none none (c + 1 + 1)])) := by
  obtain ⟨b, j, cp, fl, idl⟩ := f
  simp only [Faults.sendsOk, Bool.and_eq_true, Option.isNone_iff_eq_none] at h
  obtain ⟨⟨⟨hb, hcp⟩, hfl⟩, hidl⟩ := h
  subst hb; subst hcp; subst hfl; subst hidl
  cases j with
  | none => simp [process_job, exceptPart]
  | some e => simp [process_job, exceptPart]

/-- Dispatching any inbound message other than a job_assignment produces
no outbound message. -/
lemma handle_message_out_nonjob (wid : String) (f : Faults) (m : Inbound) (c : Nat)
    (h : m.isJobAssign = false) :
    (handle_message wid f m c).out = [] := by
  rw [handle_message_out_eq_body]
  cases m with
  | malformed payload => rfl
  | parsed fields =>
      simp only [Inbound.isJobAssign] at h
      simp only [handle_message_body]
      split
      · rfl
      · split
        · simp_all
        · split <;> rfl

/-- Dispatching a decoded job_assignment message sends exactly what
process_job sends. -/
lemma handle_message_out_job (wid : String) (f : Faults)
    (fields : List (String × JVal)) (c : Nat)
    (hT : typeIs (jGet fields "type") "job_assignment" = true) :
    (handle_message wid f (Inbound.parsed fields) c).out =
      (process_job wid f fields c).out := by
  rw [handle_message_out_eq_body]
  have hmt := typeIs_eq_some _ _ hT
  simp [handle_message_body, hmt, typeIs]

/-- process_job never sends a heartbeat, under any fault assignment. -/
lemma process_job_no_heartbeat (wid : String) (f : Faults)
    (fields : List (String × JVal)) (c : Nat) :
    (process_job wid f fields c).out.all (fun x => !x.isHeartbeatMsg) = true := by
  obtain ⟨b, j, cp, fl, idl⟩ := f
  cases b <;> cases j <;> cases cp <;> cases fl <;> cases idl <;>
    simp [process_job, exceptPart]

/-- handle_message never sends a heartbeat, under any fault assignment. -/
lemma handle_message_no_heartbeat (wid : String) (f : Faults) (m : Inbound) (c : Nat) :
    (handle_message wid f m c).out.all (fun x => !x.isHeartbeatMsg) = true := by
  rw [handle_message_out_eq_body]
  cases m with
  | malformed p => rfl
  | parsed fields =>
      simp only [handle_message_body]
      split
      · rfl
      · split
        · simpa using process_job_no_heartbeat wid _ fields c
        · split <;> rfl

/-- Once the heartbeat task has terminated, the rest of the session sends
no heartbeat. -/
lemma runSessionAux_dead_no_heartbeat (wid : String) :
    ∀ (events : List SessEvent) (c : Nat),
      (runSessionAux wid events false c).out.all (fun x => !x.isHeartbeatMsg) = true := by
  intro events
  induction events with
  | nil => intro c; rfl
  | cons ev rest ih =>
      intro c
      cases ev with
      | hbTick fail => simpa [runSessionAux] using ih c
      | recvMsg m f =>
          simp only [runSessionAux, List.all_append, Bool.and_eq_true]
          exact ⟨handle_message_no_heartbeat wid f m c, ih _⟩
      | recvFail e => rfl

/-- The session is marked over only by a failure of the recv call itself:
an ended session points back to a recvFail event. -/
lemma runSessionAux_ended_recvFail (wid : String) :
    ∀ (events : List SessEvent) (hb : Bool) (c : Nat) (e : String),
      (runSessionAux wid events hb c).ended = some e →
      SessEvent.recvFail e ∈ events := by
  intro events
  induction events with
  | nil => intro hb c e h; simp [runSessionAux] at h
  | cons ev rest ih =>
      intro hb c e h
      cases ev with
      | hbTick fail =>
          cases hb with
          | true =>
              cases fail with
              | none =>
                  exact List.mem_cons_of_mem _
                    (ih true (c + 1) e (by simpa [runSessionAux] using h))
              | some e2 =>
                  exact List.mem_cons_of_mem _
                    (ih false (c + 1) e (by simpa [runSessionAux] using h))
          | false =>
              exact List.mem_cons_of_mem _
                (ih false c e (by simpa [runSessionAux] using h))
      | recvMsg m f =>
          exact List.mem_cons_of_mem _
            (ih hb _ e (by simpa [runSessionAux] using h))
      | recvFail e2 =>
          simp [runSessionAux] at h
          subst h
          exact List.mem_cons_self _ _

/-- A session prefix with no job_assignment produces, besides heartbeats,
no outbound message at all. -/
lemma runSessionAux_nojob_filter (wid : String) :
    ∀ (events : List SessEvent) (hb : Bool) (c : Nat),
      events.countP SessEvent.isJobAssign = 0 →
      ((runSessionAux wid events hb c).out.filter fun x => !x.isHeartbeatMsg) = [] := by
  intro events
  induction events with
  | nil => intro hb c _; rfl
  | cons ev rest ih =>
      intro hb c hcount
      rw [List.countP_cons] at hcount
      cases ev with
      | hbTick fail =>
          have h0 : rest.countP SessEvent.isJobAssign = 0 := by
            simpa [SessEvent.isJobAssign] using hcount
          cases hb with
          | true =>
              cases fail with
              | none => simpa [runSessionAux] using ih true (c + 1) h0
              | some e => simpa [runSessionAux] using ih false (c + 1) h0
          | false => simpa [runSessionAux] using ih false c h0
      | recvMsg m f =>
          cases hja : m.isJobAssign with
          | true => simp [SessEvent.isJobAssign, hja] at hcount
          | false =>
              have h0 : rest.countP SessEvent.isJobAssign = 0 := by
                simpa [SessEvent.isJobAssign, hja] using hcount
              have hrw : (runSessionAux wid (SessEvent.recvMsg m f :: rest) hb c).out
                  = (handle_message wid f m c).out
                    ++ (runSessionAux wid rest hb (handle_message wid f m c).clock).out := rfl
              rw [hrw, List.filter_append, handle_message_out_nonjob wid f m c hja,
                  ih hb _ h0]
              rfl
      | recvFail e => rfl

/-- A session prefix without recv failures, with healthy sends, and with
exactly one job_assignment produces, besides heartbeats, exactly the
busy/outcome/idle bracket. -/
lemma runSessionAux_onejob (wid : String) :
    ∀ (events : List SessEvent) (hb : Bool) (c : Nat),
      events.all (fun ev => !ev.isRecvFail) = true →
      events.all SessEvent.faultsOk = true →
      events.countP SessEvent.isJobAssign = 1 →
      ∃ b x i,
        ((runSessionAux wid events hb c).out.filter fun y => !y.isHeartbeatMsg) = [b, x, i]
        ∧ b.isBusyStatus = true
        ∧ (x.isJobCompletedMsg = true ∨ x.isJobFailedMsg = true)
        ∧ i.isIdleStatus = true := by
  intro events
  induction events with
  | nil => intro hb c _ _ hcount; rw [List.countP_nil] at hcount; omega
  | cons ev rest ih =>
      intro hb c hnf hok hcount
      rw [List.all_cons, Bool.and_eq_true] at hnf hok
      rw [List.countP_cons] at hcount
      cases ev with
      | hbTick fail =>
          have h1 : rest.countP SessEvent.isJobAssign = 1 := by
            simpa [SessEvent.isJobAssign] using hcount
          cases hb with
          | true =>
              cases fail with
              | none =>
                  obtain ⟨b, x, i, he, hB, hX, hI⟩ := ih true (c + 1) hnf.2 hok.2 h1
                  exact ⟨b, x, i, by simpa [runSessionAux] using he, hB, hX, hI⟩
              | some e =>
                  obtain ⟨b, x, i, he, hB, hX, hI⟩ := ih false (c + 1) hnf.2 hok.2 h1
                  exact ⟨b, x, i, by simpa [runSessionAux] using he, hB, hX, hI⟩
          | false =>
              obtain ⟨b, x, i, he, hB, hX, hI⟩ := ih false c hnf.2 hok.2 h1
              exact ⟨b, x, i, by simpa [runSessionAux] using he, hB, hX, hI⟩
      | recvMsg m f =>
          cases hja : m.isJobAssign with
          | false =>
              have h1 : rest.countP SessEvent.isJobAssign = 1 := by
                simpa [SessEvent.isJobAssign, hja] using hcount
              obtain ⟨b, x, i, he, hB, hX, hI⟩ :=
                ih hb (handle_message wid f m c).clock hnf.2 hok.2 h1
              refine ⟨b, x, i, ?_, hB, hX, hI⟩
              have hrw : (runSessionAux wid (SessEvent.recvMsg m f :: rest) hb c).out
                  = (handle_message wid f m c).out
                    ++ (runSessionAux wid rest hb (handle_message wid f m c).clock).out := rfl
              rw [hrw, List.filter_append, handle_message_out_nonjob wid f m c hja, he]
              rfl
          | true =>
              have h0 : rest.countP SessEvent.isJobAssign = 0 := by
                simpa [SessEvent.isJobAssign, hja] using hcount
              have hfOk : f.sendsOk = true := by
                simpa [SessEvent.faultsOk] using hok.1
              cases m with
              | malformed p => simp [Inbound.isJobAssign] at hja
              | parsed fields =>
                  have hT : typeIs (jGet fields "type") "job_assignment" = true := by
                    simpa [Inbound.isJobAssign] using hja
                  obtain ⟨_, hout⟩ := process_job_sendsOk wid f fields c hfOk
                  rcases hout with ⟨_, hout⟩ | ⟨e, _, hout⟩
                  · refine ⟨OutMsg.workerStatusMsg wid "busy" none
                        (some (jGet fields "job_id")) c,
                      OutMsg.jobCompletedMsg wid (jGet fields "job_id")
                        (jobResult (jGet fields "job_id")) (c + 1),
                      OutMsg.workerStatusMsg wid "idle" none none (c + 1 + 1),
                      ?_, by simp, Or.inl (by simp), by simp⟩
                    have hrw : (runSessionAux wid
                          (SessEvent.recvMsg (Inbound.parsed fields) f :: rest) hb c).out
                        = (handle_message wid f (Inbound.parsed fields) c).out
                          ++ (runSessionAux wid rest hb
                              (handle_message wid f (Inbound.parsed fields) c).clock).out := rfl
                    rw [hrw, List.filter_append,
                        handle_message_out_job wid f fields c hT, hout,
                        runSessionAux_nojob_filter wid rest hb _ h0]
                    simp
                  · refine ⟨OutMsg.workerStatusMsg wid "busy" none
                        (some (jGet fields "job_id")) c,
                      OutMsg.jobFailedMsg wid (jGet fields "job_id") e (c + 1),
                      OutMsg.workerStatusMsg wid "idle" none none (c + 1 + 1),
                      ?_, by simp, Or.inr (by simp), by simp⟩
                    have hrw : (runSessionAux wid
                          (SessEvent.recvMsg (Inbound.parsed fields) f :: rest) hb c).out
                        = (handle_message wid f (Inbound.parsed fields) c).out
                          ++ (runSessionAux wid rest hb
                              (handle_message wid f (Inbound.parsed fields) c).clock).out := rfl
                    rw [hrw, List.filter_append,
                        handle_message_out_job wid f fields c hT, hout,
                        runSessionAux_nojob_filter wid rest hb _ h0]
                    simp
      | recvFail e => simp [SessEvent.isRecvFail] at hnf

/-- The except clauses of handle_message catch every exception: the
dispatcher itself never raises. -/
lemma handle_message_raised_none (wid : String) (f : Faults) (m : Inbound) (c : Nat) :
    (handle_message wid f m c).raised = none := by
  unfold handle_message
  rcases h : (handle_message_body wid f m c).raised with _ | p
  · simp [h]
  · cases p <;> simp [h]

/-- Every outbound dict carries its type tag under the type key and its
emission time under the timestamp key. -/
lemma toJson_self_describing (m : OutMsg) :
    jGet m.toJson "type" = some (JVal.str m.typeTag)
    ∧ jGet m.toJson "timestamp" = some (JVal.num m.timestamp) := by
  cases m with
  | workerStatusMsg wid st caps jid t =>
      cases caps <;> cases jid <;>
        simp [OutMsg.toJson, OutMsg.typeTag, OutMsg.timestamp, jGet]
  | heartbeatMsg wid t =>
      simp [OutMsg.toJson, OutMsg.typeTag, OutMsg.timestamp, jGet]
  | jobCompletedMsg wid jid r t =>
      simp [OutMsg.toJson, OutMsg.typeTag, OutMsg.timestamp, jGet]
  | jobFailedMsg wid jid e t =>
      simp [OutMsg.toJson, OutMsg.typeTag, OutMsg.timestamp, jGet]

/-- When every connection attempt itself fails, the reconnect loop is an
unbounded alternation of attempt and fixed 5-second sleep. -/
lemma connectLoop_allFail (wid : String) :
    ∀ (es : List String) (c : Nat),
      connectLoop wid (es.map Attempt.connectFail) c
        = (es.map fun _ => [Act.tryConnect, Act.sleep 5]).flatten := by
  intro es
  induction es with
  | nil => intro c; rfl
  | cons e rest ih => intro c; simp [connectLoop, ih]

/-- The only sleep the reconnect loop ever performs is the fixed 5-second
backoff. -/
lemma sleep_mem_connectLoop (wid : String) :
    ∀ (atts : List Attempt) (c n : Nat),
      Act.sleep n ∈ connectLoop wid atts c → n = 5 := by
  intro atts
  induction atts with
  | nil => intro c n h; simp [connectLoop] at h
  | cons a rest ih =>
      intro c n h
      cases a with
      | connectFail e =>
          rcases List.mem_cons.mp h with h1 | h2
          · exact absurd h1 (by simp)
          · rcases List.mem_cons.mp h2 with h3 | h4
            · exact (Act.sleep.injEq _ _).mp h3
            · exact ih c n h4
      | sessionEnd evs e =>
          rcases List.mem_cons.mp h with h1 | h2
          · exact absurd h1 (by simp)
          · rcases List.mem_append.mp h2 with h3 | h4
            · obtain ⟨m, _, hm⟩ := List.mem_map.mp h3
              exact absurd hm.symm (by simp)
            · exact ih _ n h4

/-! The claims. -/

/-- Claim C1: in any session-event sequence in which the transport receive
never fails, all job sends succeed, and exactly one job_assignment message
is received, the outbound sequence of the receive loop contains, besides
possibly interleaved heartbeats, exactly one busy worker_status, then
exactly one job_completed or job_failed, then exactly one idle
worker_status, in that order. -/
theorem C1_single_job_bracket (wid : String) (events : List SessEvent) (c : Nat)
    (hnf : events.all (fun ev => !ev.isRecvFail) = true)
    (hok : events.all SessEvent.faultsOk = true)
    (hone : events.countP SessEvent.isJobAssign = 1) :
    ∃ b x i,
      ((runSession wid events c).out.filter fun y => !y.isHeartbeatMsg) = [b, x, i]
      ∧ b.isBusyStatus = true
      ∧ (x.isJobCompletedMsg = true ∨ x.isJobFailedMsg = true)
      ∧ i.isIdleStatus = true :=
  runSessionAux_onejob wid events true c hnf hok hone

/-- Witness for C1: a concrete session with one heartbeat and one
job_assignment. -/
theorem C1_single_job_bracket_witness :
    ∃ b x i,
      ((runSession "w" [SessEvent.hbTick none,
          SessEvent.recvMsg (Inbound.parsed
            [("type", JVal.str "job_assignment"), ("job_id", JVal.str "job-42")])
            Faults.allOk] 0).out.filter fun y => !y.isHeartbeatMsg) = [b, x, i]
      ∧ b.isBusyStatus = true
      ∧ (x.isJobCompletedMsg = true ∨ x.isJobFailedMsg = true)
      ∧ i.isIdleStatus = true :=
  C1_single_job_bracket "w" _ 0 rfl rfl rfl

/-- Claim C2: whenever the four status sends succeed, process_job emits the
busy status, then exactly one outcome message, then the idle status, on
both exit paths: job_completed when the work succeeds and job_failed
carrying the captured error when the work raises; no exception reaches the
caller. -/
theorem C2_busy_idle_bracket_on_every_path (wid : String) (f : Faults)
    (fields : List (String × JVal)) (c : Nat) (h : f.sendsOk = true) :
    (process_job wid f fields c).raised = none
    ∧ ((f.jobWork = none ∧ (process_job wid f fields c).out =
          [OutMsg.workerStatusMsg wid "busy" none (some (jGet fields "job_id")) c,
           OutMsg.jobCompletedMsg wid (jGet fields "job_id")
             (jobResult (jGet fields "job_id")) (c + 1),
           OutMsg.workerStatusMsg wid "idle" none none (c + 1 + 1)])
      ∨ (∃ e, f.jobWork = some e ∧ (process_job wid f fields c).out =
          [OutMsg.workerStatusMsg wid "busy" none (some (jGet fields "job_id")) c,
           OutMsg.jobFailedMsg wid (jGet fields "job_id") e (c + 1),
           OutMsg.workerStatusMsg wid "idle" none none (c + 1 + 1)])) :=
  process_job_sendsOk wid f fields c h

/-- Witness for C2: a job whose work raises the error boom. -/
theorem C2_busy_idle_bracket_on_every_path_witness :
    (process_job "w" ⟨none, some "boom", none, none, none⟩
        [("job_id", JVal.str "j1")] 0).raised = none
    ∧ (((⟨none, some "boom", none, none, none⟩ : Faults).jobWork = none
          ∧ (process_job "w" ⟨none, some "boom", none, none, none⟩
              [("job_id", JVal.str "j1")] 0).out =
            [OutMsg.workerStatusMsg "w" "busy" none
               (some (jGet [("job_id", JVal.str "j1")] "job_id")) 0,
             OutMsg.jobCompletedMsg "w" (jGet [("job_id", JVal.str "j1")] "job_id")
               (jobResult (jGet [("job_id", JVal.str "j1")] "job_id")) 1,
             OutMsg.workerStatusMsg "w" "idle" none none 2])
      ∨ (∃ e, (⟨none, some "boom", none, none, none⟩ : Faults).jobWork = some e
          ∧ (process_job "w" ⟨none, some "boom", none, none, none⟩
              [("job_id", JVal.str "j1")] 0).out =
            [OutMsg.workerStatusMsg "w" "busy" none
               (some (jGet [("job_id", JVal.str "j1")] "job_id")) 0,
             OutMsg.jobFailedMsg "w" (jGet [("job_id", JVal.str "j1")] "job_id") e 1,
             OutMsg.workerStatusMsg "w" "idle" none none 2])) :=
  C2_busy_idle_bracket_on_every_path "w" ⟨none, some "boom", none, none, none⟩
    [("job_id", JVal.str "j1")] 0 rfl

/-- Claim C3 counterexample: a session in which the heartbeat send fails
(terminating the heartbeat task) is not treated as over — the receive loop
keeps running and fully processes a later message. -/
theorem C3_heartbeat_termination_counterexample :
    (runSession "w" [SessEvent.hbTick (some "boom"),
        SessEvent.recvMsg (Inbound.parsed [("type", JVal.str "heartbeat_response")])
          Faults.allOk] 0).ended = none
    ∧ (runSession "w" [SessEvent.hbTick (some "boom"),
        SessEvent.recvMsg (Inbound.parsed [("type", JVal.str "heartbeat_response")])
          Faults.allOk] 0).logs
      = [LogEvent.errorSendingHeartbeat "boom",
         LogEvent.receivedMessage (some (JVal.str "heartbeat_response")),
         LogEvent.heartbeatAcknowledged] :=
  ⟨rfl, rfl⟩

/-- Claim C3, amended: a heartbeat send failure terminates only the
heartbeat task — no further heartbeat is ever sent in the session — but
the Connection Manager does not observe that termination: the session is
torn down and the reconnect path entered only when the receive loop itself
fails. -/
theorem C3_heartbeat_termination_amended (wid e : String)
    (rest : List SessEvent) (c : Nat) :
    ((runSession wid (SessEvent.hbTick (some e) :: rest) c).out.all
        fun x => !x.isHeartbeatMsg) = true
    ∧ (∀ err, (runSession wid (SessEvent.hbTick (some e) :: rest) c).ended = some err →
        SessEvent.recvFail err ∈ rest) := by
  constructor
  · exact runSessionAux_dead_no_heartbeat wid rest (c + 1)
  · intro err h
    have hmem := runSessionAux_ended_recvFail wid
      (SessEvent.hbTick (some e) :: rest) true c err h
    rcases List.mem_cons.mp hmem with h1 | h2
    · exact absurd h1 (by simp)
    · exact h2

/-- Witness for the amended C3 at a concrete session. -/
theorem C3_heartbeat_termination_amended_witness :
    (((runSession "w" [SessEvent.hbTick (some "boom"), SessEvent.recvFail "drop"] 0).out.all
        fun x => !x.isHeartbeatMsg) = true)
    ∧ SessEvent.recvFail "drop" ∈ [SessEvent.recvFail "drop"] :=
  ⟨(C3_heartbeat_termination_amended "w" "boom" [SessEvent.recvFail "drop"] 0).1,
   (C3_heartbeat_termination_amended "w" "boom" [SessEvent.recvFail "drop"] 0).2 "drop" rfl⟩

/-- Claim C4: an undecodable inbound message is logged with its payload and
handled with no other side effect — nothing is sent, nothing is raised, the
clock does not move — and handling the same malformed payload twice in one
session yields two independent log events, no outbound message, and a
session that is still live and unchanged. -/
theorem C4_malformed_no_side_effects (wid payload : String) (f f2 : Faults) (c : Nat) :
    handle_message wid f (Inbound.malformed payload) c
      = { out := [], logs := [LogEvent.invalidJson payload], clock := c, raised := none }
    ∧ runSession wid [SessEvent.recvMsg (Inbound.malformed payload) f,
        SessEvent.recvMsg (Inbound.malformed payload) f2] c
      = { out := [], logs := [LogEvent.invalidJson payload, LogEvent.invalidJson payload],
          clock := c, ended := none } :=
  ⟨rfl, rfl⟩

/-- Claim C5: on a successful connect the worker first sends the idle
worker_status carrying WORKER_CAPABILITIES, then runs the receive loop with
the heartbeat task already started (a heartbeat wakeup occurring before any
inbound message is served), the loop delegating every received message to
handle_message. -/
theorem C5_connect_sequence (wid : String) (events : List SessEvent) (c : Nat)
    (m : Inbound) (f : Faults) :
    (connectSession wid events c).out.head?
      = some (OutMsg.workerStatusMsg wid "idle" (some WORKER_CAPABILITIES) none c)
    ∧ (connectSession wid events c).out
      = OutMsg.workerStatusMsg wid "idle" (some WORKER_CAPABILITIES) none c
          :: (runSession wid events (c + 1)).out
    ∧ (runSession wid (SessEvent.hbTick none :: events) (c + 1)).out.head?
      = some (OutMsg.heartbeatMsg wid (c + 1))
    ∧ (runSession wid [SessEvent.recvMsg m f] (c + 1)).out
      = (handle_message wid f m (c + 1)).out := by
  refine ⟨rfl, rfl, rfl, ?_⟩
  show (handle_message wid f m (c + 1)).out ++ [] = (handle_message wid f m (c + 1)).out
  exact List.append_nil _

/-- Claim C6 counterexample: a run whose first session dies mid-session
(receive loop failure) retries immediately — the second connection attempt
is not preceded by the 5-second sleep. -/
theorem C6_backoff_counterexample :
    connectLoop "w" [Attempt.sessionEnd [] "drop", Attempt.connectFail "refused"] 0
      = [Act.tryConnect,
         Act.send (OutMsg.workerStatusMsg "w" "idle" (some WORKER_CAPABILITIES) none 0),
         Act.tryConnect, Act.sleep 5]
    ∧ retriesBackoff (connectLoop "w"
        [Attempt.sessionEnd [] "drop", Attempt.connectFail "refused"] 0) = false :=
  ⟨rfl, rfl⟩

/-- Claim C6, amended: after a failed connection attempt the manager always
sleeps exactly 5 seconds before the next attempt, unboundedly and with no
retry limit or growing delay; but after a mid-session receive-loop failure
the error is swallowed inside the session and the next attempt follows
immediately, with no sleep anywhere in that block of the trace. -/
theorem C6_fixed_backoff_amended (wid : String) (es : List String) (c : Nat)
    (evs : List SessEvent) (e : String) (rest atts : List Attempt) (n : Nat) :
    connectLoop wid (es.map Attempt.connectFail) c
      = (es.map fun _ => [Act.tryConnect, Act.sleep 5]).flatten
    ∧ connectLoop wid (Attempt.sessionEnd evs e :: rest) c
      = Act.tryConnect ::
          ((connectSession wid (evs ++ [SessEvent.recvFail e]) c).out.map Act.send
            ++ connectLoop wid rest
                (connectSession wid (evs ++ [SessEvent.recvFail e]) c).clock)
    ∧ (∀ a ∈ (connectSession wid (evs ++ [SessEvent.recvFail e]) c).out.map Act.send,
        a.isSleep = false)
    ∧ (Act.sleep n ∈ connectLoop wid atts c → n = 5) := by
  refine ⟨connectLoop_allFail wid es c, rfl, ?_, sleep_mem_connectLoop wid atts c n⟩
  intro a ha
  obtain ⟨m, _, hm⟩ := List.mem_map.mp ha
  rw [← hm]
  rfl

/-- Witness for the amended C6 at concrete inputs. -/
theorem C6_fixed_backoff_amended_witness :
    connectLoop "w" (["refused"].map Attempt.connectFail) 0
      = (["refused"].map fun _ => [Act.tryConnect, Act.sleep 5]).flatten
    ∧ connectLoop "w" (Attempt.sessionEnd [] "drop" :: []) 0
      = Act.tryConnect ::
          ((connectSession "w" ([] ++ [SessEvent.recvFail "drop"]) 0).out.map Act.send
            ++ connectLoop "w" []
                (connectSession "w" ([] ++ [SessEvent.recvFail "drop"]) 0).clock)
    ∧ (∀ a ∈ (connectSession "w" ([] ++ [SessEvent.recvFail "drop"]) 0).out.map Act.send,
        a.isSleep = false)
    ∧ (5 = 5) :=
  ⟨(C6_fixed_backoff_amended "w" ["refused"] 0 [] "drop" [] [Attempt.connectFail "x"] 5).1,
   (C6_fixed_backoff_amended "w" ["refused"] 0 [] "drop" [] [Attempt.connectFail "x"] 5).2.1,
   (C6_fixed_backoff_amended "w" ["refused"] 0 [] "drop" [] [Attempt.connectFail "x"] 5).2.2.1,
   (C6_fixed_backoff_amended "w" ["refused"] 0 [] "drop" [] [Attempt.connectFail "x"] 5).2.2.2
     (List.mem_cons_of_mem _ (List.mem_cons_self _ _))⟩

/-- Claim C7: every outbound message of a session — the initial status, the
heartbeats, the busy status, job_completed, job_failed, and the idle
status — serializes with its own type tag under the type key and its
emission time under the timestamp key. -/
theorem C7_self_describing_messages (wid : String) (events : List SessEvent)
    (c : Nat) (m : OutMsg) (_hm : m ∈ (connectSession wid events c).out) :
    jGet m.toJson "type" = some (JVal.str m.typeTag)
    ∧ jGet m.toJson "timestamp" = some (JVal.num m.timestamp) :=
  toJson_self_describing m

/-- Witness for C7: the initial status message of an empty session. -/
theorem C7_self_describing_messages_witness :
    jGet (OutMsg.workerStatusMsg "w" "idle" (some WORKER_CAPABILITIES) none 0).toJson "type"
      = some (JVal.str (OutMsg.workerStatusMsg "w" "idle"
          (some WORKER_CAPABILITIES) none 0).typeTag)
    ∧ jGet (OutMsg.workerStatusMsg "w" "idle"
          (some WORKER_CAPABILITIES) none 0).toJson "timestamp"
      = some (JVal.num (OutMsg.workerStatusMsg "w" "idle"
          (some WORKER_CAPABILITIES) none 0).timestamp) :=
  C7_self_describing_messages "w" [] 0 _ (List.mem_cons_self _ _)

/-- Claim C8: the __main__ block exits with code 0 on a keyboard interrupt
and with code 1 when an unhandled exception escapes the reconnect loop. -/
theorem C8_exit_codes (e : String) :
    (mainHandler TopOutcome.keyboardInterrupt).exitCode = 0
    ∧ (mainHandler (TopOutcome.unhandled e)).exitCode = 1 :=
  ⟨rfl, rfl⟩

/-- Claim C9: handle_message completes without raising on every inbound
message under every fault assignment, so the receive loop can only be
terminated by a failure of the recv call itself. -/
theorem C9_dispatch_never_raises (wid : String) (f : Faults) (m : Inbound)
    (c : Nat) (events : List SessEvent) (err : String) :
    (handle_message wid f m c).raised = none
    ∧ ((runSession wid events c).ended = some err → SessEvent.recvFail err ∈ events) :=
  ⟨handle_message_raised_none wid f m c,
   runSessionAux_ended_recvFail wid events true c err⟩

/-- Witness for C9 at a concrete malformed message and a failing recv. -/
theorem C9_dispatch_never_raises_witness :
    (handle_message "w" Faults.allOk (Inbound.malformed "z") 0).raised = none
    ∧ SessEvent.recvFail "x" ∈ [SessEvent.recvFail "x"] :=
  ⟨(C9_dispatch_never_raises "w" Faults.allOk (Inbound.malformed "z") 0
      [SessEvent.recvFail "x"] "x").1,
   (C9_dispatch_never_raises "w" Faults.allOk (Inbound.malformed "z") 0
      [SessEvent.recvFail "x"] "x").2 rfl⟩

/-- Claim C10: a job_assignment without a job_id field is not rejected:
the full busy, job_completed, idle bracket still runs, with the busy
status and the job_completed message serializing their job_id as null. -/
theorem C10_missing_job_id_runs_with_null (wid : String)
    (fields : List (String × JVal)) (c : Nat)
    (hT : typeIs (jGet fields "type") "job_assignment" = true)
    (hJ : jGet fields "job_id" = none) :
    (handle_message wid Faults.allOk (Inbound.parsed fields) c).out
      = [OutMsg.workerStatusMsg wid "busy" none (some none) c,
         OutMsg.jobCompletedMsg wid none (jobResult none) (c + 1),
         OutMsg.workerStatusMsg wid "idle" none none (c + 1 + 1)]
    ∧ (handle_message wid Faults.allOk (Inbound.parsed fields) c).raised = none
    ∧ jGet (OutMsg.workerStatusMsg wid "busy" none (some none) c).toJson "job_id"
      = some JVal.null
    ∧ jGet (OutMsg.jobCompletedMsg wid none (jobResult none) (c + 1)).toJson "job_id"
      = some JVal.null := by
  refine ⟨?_, handle_message_raised_none wid Faults.allOk (Inbound.parsed fields) c, ?_, ?_⟩
  · rw [handle_message_out_job wid Faults.allOk fields c hT]
    obtain ⟨_, hout⟩ := process_job_sendsOk wid Faults.allOk fields c rfl
    rcases hout with ⟨_, hout⟩ | ⟨e, hjw, _⟩
    · rw [hout, hJ]
    · exact absurd hjw (by simp [Faults.allOk])
  · simp [OutMsg.toJson, jGet, optJ]
  · simp [OutMsg.toJson, jGet, optJ]

/-- Witness for C10: a job_assignment carrying only the type key. -/
theorem C10_missing_job_id_runs_with_null_witness :
    (handle_message "w" Faults.allOk
        (Inbound.parsed [("type", JVal.str "job_assignment")]) 0).out
      = [OutMsg.workerStatusMsg "w" "busy" none (some none) 0,
         OutMsg.jobCompletedMsg "w" none (jobResult none) 1,
         OutMsg.workerStatusMsg "w" "idle" none none 2]
    ∧ (handle_message "w" Faults.allOk
        (Inbound.parsed [("type", JVal.str "job_assignment")]) 0).raised = none
    ∧ jGet (OutMsg.workerStatusMsg "w" "busy" none (some none) 0).toJson "job_id"
      = some JVal.null
    ∧ jGet (OutMsg.jobCompletedMsg "w" none (jobResult none) 1).toJson "job_id"
      = some JVal.null :=
  C10_missing_job_id_runs_with_null "w" [("type", JVal.str "job_assignment")] 0 rfl rfl

end EmpRedisWorker
